import Mathlib

/-!
Formal model of the simulation core of the `arcaders` 2D arcade shooter.

The Rust sources are embedded shallowly:
* `f64` values are modelled as rationals (`ℚ`), so all arithmetic is exact;
  the two transcendental ingredients of the code (`f64::sin` used by
  `SineBullet::rect`, and `1.0 / 2.0f64.sqrt()` used for diagonal player
  movement) are threaded through as explicit parameters (`sinq`, `rsqrt2`).
* fallible operations (`Option` in Rust) and calls that panic (`unwrap`,
  `set_fps(0)`) are modelled with `Option`, `none` standing for the panic.
* textures are irrelevant to the logic; a `Sprite` keeps only its source
  rectangle (which determines `Sprite::size`).
* randomness and the input snapshot are passed in explicitly through an
  environment record, mirroring how the view reads `phi.events` and `rand`.
-/

namespace Arcade

/-- Axis-aligned rectangle, from `phi/data.rs` (`Rectangle { x, y, w, h }`). -/
@[ext]
structure Rectangle where
  x : ℚ
  y : ℚ
  w : ℚ
  h : ℚ
deriving DecidableEq

/-- Embeds `Rectangle::with_size`: the given size, top-left corner at the origin. -/
def Rectangle.with_size (w h : ℚ) : Rectangle :=
  { w := w, h := h, x := 0, y := 0 }

/-- Embeds `Rectangle::center_at`: reposition so that the rectangle is centered at
the given point. -/
def Rectangle.center_at (self : Rectangle) (center : ℚ × ℚ) : Rectangle :=
  { self with x := center.1 - self.w / 2, y := center.2 - self.h / 2 }

/-- Embeds `Rectangle::center`: the center point of the rectangle. -/
def Rectangle.center (self : Rectangle) : ℚ × ℚ :=
  (self.x + self.w / 2, self.y + self.h / 2)

/-- Embeds `Rectangle::contains`: the four corners of `rect` lie within the closed
bounds of `self`. -/
def Rectangle.contains (self : Rectangle) (rect : Rectangle) : Bool :=
  decide (rect.x ≥ self.x ∧ rect.x ≤ self.x + self.w ∧
          rect.x + rect.w ≥ self.x ∧ rect.x + rect.w ≤ self.x + self.w ∧
          rect.y ≥ self.y ∧ rect.y ≤ self.y + self.h ∧
          rect.y + rect.h ≥ self.y ∧ rect.y + rect.h ≤ self.y + self.h)

/-- Embeds `Rectangle::overlaps`: open-interval AABB intersection on both axes. -/
def Rectangle.overlaps (self : Rectangle) (other : Rectangle) : Bool :=
  decide (self.x < other.x + other.w ∧ self.x + self.w > other.x ∧
          self.y < other.y + other.h ∧ self.y + self.h > other.y)

/-- Embeds `Rectangle::move_inside`: `none` if the rectangle is wider or taller than
`parent`; otherwise translate each axis independently so the rectangle lies
within `parent`, keeping the original coordinate when it already fits. -/
def Rectangle.move_inside (self parent : Rectangle) : Option Rectangle :=
  if self.w > parent.w ∨ self.h > parent.h then
    none
  else
    some { w := self.w, h := self.h,
           x := if self.x < parent.x then parent.x
                else if self.x + self.w ≥ parent.x + parent.w then
                  parent.x + parent.w - self.w
                else self.x,
           y := if self.y < parent.y then parent.y
                else if self.y + self.h ≥ parent.y + parent.h then
                  parent.y + parent.h - self.h
                else self.y }

/-- Unfolding lemma for `Rectangle.contains` as a proposition. -/
lemma contains_eq_true_iff (self rect : Rectangle) :
    self.contains rect = true ↔
      (rect.x ≥ self.x ∧ rect.x ≤ self.x + self.w ∧
       rect.x + rect.w ≥ self.x ∧ rect.x + rect.w ≤ self.x + self.w ∧
       rect.y ≥ self.y ∧ rect.y ≤ self.y + self.h ∧
       rect.y + rect.h ≥ self.y ∧ rect.y + rect.h ≤ self.y + self.h) := by
  simp [Rectangle.contains]

/-- Unfolding lemma for `Rectangle.overlaps` as a proposition. -/
lemma overlaps_eq_true_iff (self other : Rectangle) :
    self.overlaps other = true ↔
      (self.x < other.x + other.w ∧ self.x + self.w > other.x ∧
       self.y < other.y + other.h ∧ self.y + self.h > other.y) := by
  simp [Rectangle.overlaps]

/-- Lemma: `move_inside` fails exactly on oversized rectangles. -/
lemma move_inside_eq_none_iff (R P : Rectangle) :
    R.move_inside P = none ↔ (R.w > P.w ∨ R.h > P.h) := by
  unfold Rectangle.move_inside
  split <;> simp_all

/-- A successful `move_inside` keeps the size and lands inside the parent. -/
lemma move_inside_some_spec (R P res : Rectangle)
    (hw : 0 ≤ R.w) (hh : 0 ≤ R.h)
    (h : R.move_inside P = some res) :
    P.contains res = true ∧ res.w = R.w ∧ res.h = R.h := by
  unfold Rectangle.move_inside at h
  split at h
  · exact absurd h (by simp)
  · rename_i hfit
    push_neg at hfit
    obtain ⟨hfw, hfh⟩ := hfit
    obtain rfl : _ = res := Option.some.inj h
    refine ⟨?_, rfl, rfl⟩
    rw [contains_eq_true_iff]
    refine ⟨?_, ?_, ?_, ?_, ?_, ?_, ?_, ?_⟩ <;> dsimp only <;>
      split_ifs <;> linarith

/-- A rectangle already inside the parent is returned unchanged. -/
lemma move_inside_of_contains (R P : Rectangle) (_hw : 0 ≤ R.w) (_hh : 0 ≤ R.h)
    (h : P.contains R = true) : R.move_inside P = some R := by
  rw [contains_eq_true_iff] at h
  obtain ⟨h1, h2, h3, h4, h5, h6, h7, h8⟩ := h
  unfold Rectangle.move_inside
  rw [if_neg (by push_neg; constructor <;> linarith)]
  refine congrArg some (Rectangle.ext ?_ ?_ rfl rfl) <;> dsimp only <;>
    split_ifs <;> linarith

/-- C4: For rectangles with non-negative sizes, `move_inside(R, P)` returns no
result exactly when `R.w > P.w` or `R.h > P.h`; otherwise its result is
contained in `P`, has the same size as `R`, and equals `R` itself when `R` is
already inside `P`. -/
theorem move_inside_full_spec (R P : Rectangle)
    (hRw : 0 ≤ R.w) (hRh : 0 ≤ R.h) (_hPw : 0 ≤ P.w) (_hPh : 0 ≤ P.h) :
    (R.move_inside P = none ↔ (R.w > P.w ∨ R.h > P.h)) ∧
    (∀ res, R.move_inside P = some res →
      P.contains res = true ∧ res.w = R.w ∧ res.h = R.h) ∧
    (P.contains R = true → R.move_inside P = some R) := by
  refine ⟨move_inside_eq_none_iff R P, ?_, ?_⟩
  · intro res h
    exact move_inside_some_spec R P res hRw hRh h
  · intro h
    exact move_inside_of_contains R P hRw hRh h

/-- Witness for C4 at a concrete pair of rectangles. -/
theorem move_inside_full_spec_witness :
    ((Rectangle.mk 12 (-3) 2 2).move_inside (Rectangle.mk 0 0 10 10) = none ↔
      ((2 : ℚ) > 10 ∨ (2 : ℚ) > 10)) ∧
    (∀ res, (Rectangle.mk 12 (-3) 2 2).move_inside (Rectangle.mk 0 0 10 10) =
        some res →
      (Rectangle.mk 0 0 10 10).contains res = true ∧ res.w = 2 ∧ res.h = 2) ∧
    ((Rectangle.mk 0 0 10 10).contains (Rectangle.mk 12 (-3) 2 2) = true →
      (Rectangle.mk 12 (-3) 2 2).move_inside (Rectangle.mk 0 0 10 10) =
        some (Rectangle.mk 12 (-3) 2 2)) :=
  move_inside_full_spec (Rectangle.mk 12 (-3) 2 2) (Rectangle.mk 0 0 10 10)
    (by norm_num) (by norm_num) (by norm_num) (by norm_num)

/-- Embeds `MaybeAlive` from `phi/data.rs`: a value tagged with an alive flag. -/
structure MaybeAlive (α : Type) where
  alive : Bool
  value : α
deriving DecidableEq

/-- Embeds `MaybeAlive::as_option`: keep the value only while it is alive. -/
def MaybeAlive.as_option {α : Type} (m : MaybeAlive α) : Option α :=
  if m.alive then some m.value else none

/-- A `Sprite` from `phi/gfx.rs`, reduced to its source sub-rectangle (the
shared texture handle plays no role in the simulation logic). -/
structure Sprite where
  src : Rectangle
deriving DecidableEq

/-- Embeds `Sprite::size`: the dimensions of the viewed region. -/
def Sprite.size (s : Sprite) : ℚ × ℚ :=
  (s.src.w, s.src.h)

/-- Embeds `AnimatedSprite` from `phi/gfx.rs`: an ordered frame list, the seconds
per frame, and the accumulated playback time. -/
structure AnimatedSprite where
  sprites : List Sprite
  frame_delay : ℚ
  current_time : ℚ
deriving DecidableEq

/-- Embeds `AnimatedSprite::frames`: the number of frames of the animation. -/
def AnimatedSprite.frames (s : AnimatedSprite) : ℕ :=
  s.sprites.length

/-- Embeds `AnimatedSprite::set_frame_delay`. -/
def AnimatedSprite.set_frame_delay (s : AnimatedSprite) (frame_delay : ℚ) :
    AnimatedSprite :=
  { s with frame_delay := frame_delay }

/-- Embeds `AnimatedSprite::set_fps`: panics (`none`) on `fps = 0`, otherwise sets
the frame delay to `1 / fps`. -/
def AnimatedSprite.set_fps (s : AnimatedSprite) (fps : ℚ) :
    Option AnimatedSprite :=
  if fps = 0 then none else some (s.set_frame_delay (1 / fps))

/-- Embeds `AnimatedSprite::add_time`: accumulate `dt`; a negative cumulative time
snaps to the timestamp of the last frame. -/
def AnimatedSprite.add_time (s : AnimatedSprite) (dt : ℚ) : AnimatedSprite :=
  let ct := s.current_time + dt
  if ct < 0 then
    { s with current_time := ((s.frames - 1 : ℕ) : ℚ) * s.frame_delay }
  else
    { s with current_time := ct }

/-- The frame index selected by `AnimatedSprite`'s `render`:
`(current_time / frame_delay) as usize % frames`.  The `f64`-to-`usize`
cast truncates and saturates at zero, which on the rationals is
`Int.toNat ∘ Int.floor` for the values that arise (non-negative quotients). -/
def AnimatedSprite.current_frame (s : AnimatedSprite) : ℕ :=
  (⌊s.current_time / s.frame_delay⌋).toNat % s.frames

/-- C5: with a non-empty frame list, a positive frame delay and a
non-negative playback cursor, advancing the time by one full period
`frames * frame_delay` leaves the displayed frame index unchanged. -/
theorem animated_sprite_period (s : AnimatedSprite)
    (_hne : s.sprites ≠ []) (hd : 0 < s.frame_delay) (ht : 0 ≤ s.current_time) :
    (s.add_time ((s.frames : ℚ) * s.frame_delay)).current_frame =
      s.current_frame := by
  have hper : 0 ≤ (s.frames : ℚ) * s.frame_delay :=
    mul_nonneg (by positivity) hd.le
  have hct : ¬ s.current_time + (s.frames : ℚ) * s.frame_delay < 0 := by
    push_neg
    linarith
  have hfloor : 0 ≤ ⌊s.current_time / s.frame_delay⌋ :=
    Int.floor_nonneg.mpr (div_nonneg ht hd.le)
  unfold AnimatedSprite.add_time AnimatedSprite.current_frame
  rw [if_neg hct]
  have hdiv : (s.current_time + (s.frames : ℚ) * s.frame_delay) /
      s.frame_delay = s.current_time / s.frame_delay + (s.frames : ℚ) := by
    field_simp
  rw [hdiv, Int.floor_add_nat, Int.toNat_add hfloor (Int.ofNat_nonneg _),
    Int.toNat_natCast]
  simp only [AnimatedSprite.frames]
  exact Nat.add_mod_right _ _

/-- Witness for C5 at a concrete two-frame animation. -/
theorem animated_sprite_period_witness :
    ((AnimatedSprite.mk [Sprite.mk (Rectangle.mk 0 0 1 1),
        Sprite.mk (Rectangle.mk 1 0 1 1)] (1/2) (3/4)).add_time
      (((AnimatedSprite.mk [Sprite.mk (Rectangle.mk 0 0 1 1),
        Sprite.mk (Rectangle.mk 1 0 1 1)] (1/2) (3/4)).frames : ℚ) *
        (1/2))).current_frame =
    (AnimatedSprite.mk [Sprite.mk (Rectangle.mk 0 0 1 1),
        Sprite.mk (Rectangle.mk 1 0 1 1)] (1/2) (3/4)).current_frame :=
  animated_sprite_period
    (AnimatedSprite.mk [Sprite.mk (Rectangle.mk 0 0 1 1),
        Sprite.mk (Rectangle.mk 1 0 1 1)] (1/2) (3/4))
    (by decide) (by norm_num) (by norm_num)

/-- Embeds `BULLET_SPEED` from `views/bullets.rs`. -/
def BULLET_SPEED : ℚ := 240

/-- Embeds `BULLET_W` from `views/bullets.rs`. -/
def BULLET_W : ℚ := 8

/-- Embeds `BULLET_H` from `views/bullets.rs`. -/
def BULLET_H : ℚ := 4

/-- The three bullet variants of `views/bullets.rs`
(`RectBullet`, `SineBullet`, `DivergentBullet`), as one closed type in
place of the Rust trait objects. -/
inductive Bullet where
  | rectBullet (rect : Rectangle)
  | sineBullet (pos_x origin_y amplitude angular_vel total_time : ℚ)
  | divergentBullet (pos_x origin_y a b total_time : ℚ)
deriving DecidableEq

/-- Embeds `Bullet::rect` for each variant; `sinq` abstracts `f64::sin`. -/
def Bullet.rect (sinq : ℚ → ℚ) : Bullet → Rectangle
  | .rectBullet r => r
  | .sineBullet pos_x origin_y amplitude angular_vel total_time =>
      let dy := amplitude * sinq (angular_vel * total_time)
      { x := pos_x, y := origin_y + dy, w := BULLET_W, h := BULLET_H }
  | .divergentBullet pos_x origin_y a b total_time =>
      let dy := a * ((total_time / b) ^ 3 - (total_time / b) ^ 2)
      { x := pos_x, y := origin_y + dy, w := BULLET_W, h := BULLET_H }

/-- Embeds `Bullet::update` for each variant: advance the horizontal position by
`BULLET_SPEED * dt` (and the private lifetime clock by `dt`), then cull
against the screen bounds exactly as each variant does. -/
def Bullet.update (sinq : ℚ → ℚ) (outW outH dt : ℚ) : Bullet → Option Bullet
  | .rectBullet r =>
      let r2 := { r with x := r.x + BULLET_SPEED * dt }
      if r2.x > outW then none else some (.rectBullet r2)
  | .sineBullet pos_x origin_y amplitude angular_vel total_time =>
      let b2 := Bullet.sineBullet (pos_x + BULLET_SPEED * dt) origin_y
        amplitude angular_vel (total_time + dt)
      if (b2.rect sinq).x > outW then none else some b2
  | .divergentBullet pos_x origin_y a b total_time =>
      let b2 := Bullet.divergentBullet (pos_x + BULLET_SPEED * dt) origin_y
        a b (total_time + dt)
      let r := b2.rect sinq
      if r.x > outW ∨ r.x < 0 ∨ r.y > outH ∨ r.y < 0 then none else some b2

/-- Embeds `CannonType` from `views/bullets.rs`. -/
inductive CannonType where
  | rectBullet
  | sineBullet (amplitude angular_vel : ℚ)
  | divergentBullet (a b : ℚ)
deriving DecidableEq

/-- Free function `spawn_bullets` from `views/bullets.rs`: two bullets of the
selected variant, one per cannon mount; the divergent pair receives `-a`
for the top mount and `a` for the bottom mount. -/
def spawn_bullets (cannon : CannonType)
    (cannons_x cannon1_y cannon2_y : ℚ) : List Bullet :=
  match cannon with
  | .rectBullet =>
      [ .rectBullet { x := cannons_x, y := cannon1_y,
                      w := BULLET_W, h := BULLET_H },
        .rectBullet { x := cannons_x, y := cannon2_y,
                      w := BULLET_W, h := BULLET_H } ]
  | .sineBullet amplitude angular_vel =>
      [ .sineBullet cannons_x cannon1_y amplitude angular_vel 0,
        .sineBullet cannons_x cannon2_y amplitude angular_vel 0 ]
  | .divergentBullet a b =>
      [ .divergentBullet cannons_x cannon1_y (-a) b 0,
        .divergentBullet cannons_x cannon2_y a b 0 ]

/-- Embeds `PLAYER_SPEED` from `views/game.rs`. -/
def PLAYER_SPEED : ℚ := 180

/-- Embeds `PLAYER_W` from `views/game.rs`. -/
def PLAYER_W : ℚ := 43

/-- Embeds `PLAYER_H` from `views/game.rs`. -/
def PLAYER_H : ℚ := 39

/-- The input snapshot fields the game view reads: held directional keys
(`events.key_*`) and this-frame edges (`events.now.*`, `Some true` meaning
pressed this frame). -/
structure Events where
  now_quit : Bool
  now_key_1 : Option Bool
  now_key_2 : Option Bool
  now_key_3 : Option Bool
  now_key_space : Option Bool
  key_up : Bool
  key_down : Bool
  key_left : Bool
  key_right : Bool
deriving DecidableEq

/-- The `Player` of `views/game.rs`, keeping the fields the simulation
manipulates (the sprite table and current frame only affect rendering). -/
structure Player where
  rect : Rectangle
  cannon : CannonType
deriving DecidableEq

/-- Embeds `Player::update`: switch the cannon on the 1/2/3 key edges, move by the
held keys (diagonal movement scaled by `rsqrt2`, the value of
`1.0 / 2.0f64.sqrt()`), then clamp into the movable region, the leftmost
70% of the viewport at full height.  The `unwrap` on a failed clamp is the
`none` outcome. -/
def Player.update (ev : Events) (elapsed outW outH rsqrt2 : ℚ) (p : Player) :
    Option Player :=
  let cannon1 := if ev.now_key_1 = some true then CannonType.rectBullet
                 else p.cannon
  let cannon2 := if ev.now_key_2 = some true then CannonType.sineBullet 10 15
                 else cannon1
  let cannon3 := if ev.now_key_3 = some true then
                   CannonType.divergentBullet 100 (12/10)
                 else cannon2
  let diagonal := (xor ev.key_up ev.key_down) && (xor ev.key_left ev.key_right)
  let moved := (if diagonal then rsqrt2 else 1) * PLAYER_SPEED * elapsed
  let dx : ℚ :=
    match ev.key_left, ev.key_right with
    | true, true => 0
    | false, false => 0
    | true, false => -moved
    | false, true => moved
  let dy : ℚ :=
    match ev.key_up, ev.key_down with
    | true, true => 0
    | false, false => 0
    | true, false => -moved
    | false, true => moved
  let rect1 := { p.rect with x := p.rect.x + dx, y := p.rect.y + dy }
  let movable_region : Rectangle :=
    { x := 0, y := 0, w := outW * (70/100), h := outH }
  (rect1.move_inside movable_region).map
    (fun r => { rect := r, cannon := cannon3 })

/-- Embeds `Player::spawn_bullets`: fire from the two cannon mounts of the ship's
current rectangle with the currently selected cannon. -/
def Player.spawn_bullets (p : Player) : List Bullet :=
  let cannons_x := p.rect.x + 30
  let cannon1_y := p.rect.y + 6
  let cannon2_y := p.rect.y + PLAYER_H - 10
  Arcade.spawn_bullets p.cannon cannons_x cannon1_y cannon2_y

/-- Observation: does a bullet carry the variant the cannon selects? -/
def Bullet.sameVariantAs : Bullet → CannonType → Bool
  | .rectBullet _, .rectBullet => true
  | .sineBullet _ _ amplitude angular_vel _, .sineBullet a v =>
      decide (amplitude = a ∧ angular_vel = v)
  | .divergentBullet _ _ _ b _, .divergentBullet _ b2 => decide (b = b2)
  | _, _ => false

/-- Observation: the cubic shape coefficient of a divergent bullet
(`0` for the other variants). -/
def Bullet.divergeCoeff : Bullet → ℚ
  | .divergentBullet _ _ a _ _ => a
  | _ => 0

/-- Observation: the `a` parameter of a divergent cannon (`0` otherwise). -/
def CannonType.divergeCoeff : CannonType → ℚ
  | .divergentBullet a _ => a
  | _ => 0

/-- C6: firing spawns exactly two bullets, both at `x + 30`, the top one at
`y + 6` and the bottom one at `y + PLAYER_H - 10`, both of the selected
cannon variant; for the divergent cannon the shape coefficients are
mirrored, `-a` on top and `a` on the bottom.  `sinq` abstracts `f64::sin`
and satisfies `sin 0 = 0`. -/
theorem spawn_bullets_spec (sinq : ℚ → ℚ) (hsin : sinq 0 = 0) (p : Player) :
    p.spawn_bullets.length = 2 ∧
    p.spawn_bullets.map (fun b => (b.rect sinq).x) =
      [p.rect.x + 30, p.rect.x + 30] ∧
    p.spawn_bullets.map (fun b => (b.rect sinq).y) =
      [p.rect.y + 6, p.rect.y + PLAYER_H - 10] ∧
    p.spawn_bullets.map (fun b => b.sameVariantAs p.cannon) = [true, true] ∧
    p.spawn_bullets.map Bullet.divergeCoeff =
      [-(p.cannon.divergeCoeff), p.cannon.divergeCoeff] := by
  obtain ⟨rect, cannon⟩ := p
  cases cannon <;>
    simp [Player.spawn_bullets, Arcade.spawn_bullets, Bullet.rect,
      Bullet.sameVariantAs, Bullet.divergeCoeff, CannonType.divergeCoeff,
      hsin, mul_zero, zero_div]

/-- Witness for C6 with a divergent cannon at a concrete ship rectangle. -/
theorem spawn_bullets_spec_witness :
    (Player.mk (Rectangle.mk 64 280 43 39)
        (CannonType.divergentBullet 100 (12/10))).spawn_bullets.length = 2 ∧
    (Player.mk (Rectangle.mk 64 280 43 39)
        (CannonType.divergentBullet 100 (12/10))).spawn_bullets.map
      (fun b => (b.rect (fun _ => 0)).x) = [64 + 30, 64 + 30] ∧
    (Player.mk (Rectangle.mk 64 280 43 39)
        (CannonType.divergentBullet 100 (12/10))).spawn_bullets.map
      (fun b => (b.rect (fun _ => 0)).y) = [280 + 6, 280 + PLAYER_H - 10] ∧
    (Player.mk (Rectangle.mk 64 280 43 39)
        (CannonType.divergentBullet 100 (12/10))).spawn_bullets.map
      (fun b => b.sameVariantAs (CannonType.divergentBullet 100 (12/10))) =
      [true, true] ∧
    (Player.mk (Rectangle.mk 64 280 43 39)
        (CannonType.divergentBullet 100 (12/10))).spawn_bullets.map
      Bullet.divergeCoeff =
      [-((CannonType.divergentBullet 100 (12/10)).divergeCoeff),
       (CannonType.divergentBullet 100 (12/10)).divergeCoeff] :=
  spawn_bullets_spec (fun _ => 0) rfl
    (Player.mk (Rectangle.mk 64 280 43 39)
      (CannonType.divergentBullet 100 (12/10)))

/-- Lemma: `Player.update` always clamps the moved rectangle into the movable
region; the moved rectangle keeps the player's size. -/
lemma player_update_shape (ev : Events) (elapsed outW outH rsqrt2 : ℚ)
    (p : Player) :
    ∃ dx dy cannon3,
      p.update ev elapsed outW outH rsqrt2 =
        (({ p.rect with x := p.rect.x + dx, y := p.rect.y + dy } :
            Rectangle).move_inside
          { x := 0, y := 0, w := outW * (70/100), h := outH }).map
          (fun r => { rect := r, cannon := cannon3 }) :=
  ⟨_, _, _, rfl⟩

/-- C9: whenever the player's rectangle fits the movable region
(`PLAYER_W ≤ 0.70 * outW` and `PLAYER_H ≤ outH`), `Player::update`'s clamp
cannot fail and the resulting rectangle is contained in the movable region;
when the rectangle does not fit on some axis the clamp yields no placement,
i.e. the `unwrap` panics. -/
theorem player_update_clamp_spec (ev : Events) (elapsed outW outH rsqrt2 : ℚ)
    (p : Player) (hw : p.rect.w = PLAYER_W) (hh : p.rect.h = PLAYER_H) :
    (PLAYER_W ≤ outW * (70/100) ∧ PLAYER_H ≤ outH →
      (p.update ev elapsed outW outH rsqrt2).map
        (fun q => (Rectangle.mk 0 0 (outW * (70/100)) outH).contains q.rect) =
        some true) ∧
    (PLAYER_W > outW * (70/100) ∨ PLAYER_H > outH →
      p.update ev elapsed outW outH rsqrt2 = none) := by
  obtain ⟨dx, dy, cannon3, heq⟩ :=
    player_update_shape ev elapsed outW outH rsqrt2 p
  rw [heq]
  set R : Rectangle :=
    { p.rect with x := p.rect.x + dx, y := p.rect.y + dy } with hR
  set M : Rectangle := { x := 0, y := 0, w := outW * (70/100), h := outH }
  have hRw : R.w = PLAYER_W := hw
  have hRh : R.h = PLAYER_H := hh
  constructor
  · rintro ⟨h1, h2⟩
    cases hmi : R.move_inside M with
    | none =>
        rw [move_inside_eq_none_iff] at hmi
        rcases hmi with hbad | hbad
        · rw [hRw] at hbad
          exact absurd (lt_of_le_of_lt h1 hbad) (lt_irrefl _)
        · rw [hRh] at hbad
          exact absurd (lt_of_le_of_lt h2 hbad) (lt_irrefl _)
    | some r =>
        have hc := move_inside_some_spec R M r
          (by rw [hRw]; norm_num [PLAYER_W])
          (by rw [hRh]; norm_num [PLAYER_H]) hmi
        exact congrArg some hc.1
  · intro hbig
    have : R.move_inside M = none := by
      rw [move_inside_eq_none_iff, hRw, hRh]
      exact hbig
    rw [this]
    rfl

/-- Witness for C9: a fitting viewport, where the clamp succeeds and the
result lies in the movable region. -/
theorem player_update_clamp_spec_witness :
    ((Player.mk (Rectangle.mk 64 280 43 39) CannonType.rectBullet).update
        (Events.mk false none none none none false false false false)
        0 800 600 0).map
      (fun q =>
        (Rectangle.mk 0 0 (800 * (70/100)) 600).contains q.rect) =
      some true :=
  (player_update_clamp_spec
    (Events.mk false none none none none false false false false)
    0 800 600 0
    (Player.mk (Rectangle.mk 64 280 43 39) CannonType.rectBullet)
    rfl rfl).1 (by norm_num [PLAYER_W, PLAYER_H])

/-- Embeds `ASTEROID_SIDE` from `views/game.rs`. -/
def ASTEROID_SIDE : ℚ := 96

/-- Embeds `EXPLOSIONS_TOTAL` from `views/game.rs`. -/
def EXPLOSIONS_TOTAL : ℕ := 17

/-- Embeds `EXPLOSION_SIDE` from `views/game.rs`. -/
def EXPLOSION_SIDE : ℚ := 96

/-- Embeds `EXPLOSION_FPS` from `views/game.rs`. -/
def EXPLOSION_FPS : ℚ := 16

/-- Embeds `EXPLOSION_DURATION` from `views/game.rs`. -/
def EXPLOSION_DURATION : ℚ := 1 / EXPLOSION_FPS * (EXPLOSIONS_TOTAL : ℚ)

/-- The `Asteroid` of `views/game.rs`. -/
structure Asteroid where
  sprite : AnimatedSprite
  rect : Rectangle
  vel : ℚ
deriving DecidableEq

/-- Embeds `Asteroid::update`: drift left by `dt * vel`, advance the animation,
cull once fully past the left edge. -/
def Asteroid.update (dt : ℚ) (a : Asteroid) : Option Asteroid :=
  let a2 : Asteroid :=
    { a with rect := { a.rect with x := a.rect.x - dt * a.vel },
             sprite := a.sprite.add_time dt }
  if a2.rect.x ≤ -ASTEROID_SIDE then none else some a2

/-- Embeds `AsteroidFactory` from `views/game.rs`. -/
structure AsteroidFactory where
  sprite : AnimatedSprite
deriving DecidableEq

/-- Embeds `AsteroidFactory::random`, with the three uniform draws in `[0, 1)`
passed in explicitly (`randFps`, `randY`, `randVel`); the `set_fps` panic
is the `none` outcome. -/
def AsteroidFactory.random (f : AsteroidFactory)
    (outW outH randFps randY randVel : ℚ) : Option Asteroid :=
  (f.sprite.set_fps (randFps * 20 + 10)).map fun sprite =>
    { sprite := sprite,
      rect := { w := ASTEROID_SIDE, h := ASTEROID_SIDE,
                x := outW, y := randY * (outH - ASTEROID_SIDE) },
      vel := randVel * 100 + 50 }

/-- The `Explosion` of `views/game.rs`. -/
structure Explosion where
  sprite : AnimatedSprite
  rect : Rectangle
  alive_since : ℚ
deriving DecidableEq

/-- Embeds `Explosion::update`: age by `dt`, advance the animation, cull once the
age reaches `EXPLOSION_DURATION`. -/
def Explosion.update (dt : ℚ) (e : Explosion) : Option Explosion :=
  let e2 : Explosion :=
    { e with alive_since := e.alive_since + dt,
             sprite := e.sprite.add_time dt }
  if e2.alive_since ≥ EXPLOSION_DURATION then none else some e2

/-- Embeds `ExplosionFactory` from `views/game.rs`. -/
structure ExplosionFactory where
  sprite : AnimatedSprite
deriving DecidableEq

/-- Embeds `ExplosionFactory::at_center`: a fresh explosion of fixed size centered
at the given point. -/
def ExplosionFactory.at_center (f : ExplosionFactory) (center : ℚ × ℚ) :
    Explosion :=
  { sprite := f.sprite,
    rect := (Rectangle.with_size EXPLOSION_SIDE EXPLOSION_SIDE).center_at
      center,
    alive_since := 0 }

/-- The mutable state threaded through the collision pass of
`GameView::update`: the bullet list tagged with alive flags, the surviving
asteroids accumulated so far, the explosion list, and the `player_alive`
local. -/
structure CollisionState where
  bullets : List (MaybeAlive Bullet)
  asteroids : List Asteroid
  explosions : List Explosion
  player_alive : Bool
deriving DecidableEq

/-- The body of the `filter_map` closure of the collision pass
(`views/game.rs`): test the asteroid against every bullet, marking hit
bullets dead; test it against the player; keep a surviving asteroid, and
spawn an explosion at the center of a destroyed one. -/
def collideAsteroid (sinq : ℚ → ℚ) (playerRect : Rectangle)
    (ef : ExplosionFactory) (st : CollisionState) (asteroid : Asteroid) :
    CollisionState :=
  let bulletHit := st.bullets.any fun bullet =>
    asteroid.rect.overlaps (bullet.value.rect sinq)
  let bullets2 := st.bullets.map fun bullet =>
    if asteroid.rect.overlaps (bullet.value.rect sinq) then
      { bullet with alive := false }
    else bullet
  let playerHit := asteroid.rect.overlaps playerRect
  let asteroid_alive := !bulletHit && !playerHit
  let player_alive := st.player_alive && !playerHit
  if asteroid_alive then
    { bullets := bullets2, asteroids := st.asteroids ++ [asteroid],
      explosions := st.explosions, player_alive := player_alive }
  else
    { bullets := bullets2, asteroids := st.asteroids,
      explosions := st.explosions ++ [ef.at_center asteroid.rect.center],
      player_alive := player_alive }

/-- The outcome of the collision pass: the retained bullets and asteroids,
the explosion list with the newly spawned explosions appended, and the
`player_alive` flag. -/
structure CollisionResult where
  bullets : List Bullet
  asteroids : List Asteroid
  explosions : List Explosion
  player_alive : Bool
deriving DecidableEq

/-- The collision pass of `GameView::update` (`views/game.rs`): wrap every
bullet as alive, run the asteroid loop, then retain the bullets still
alive. -/
def collisionPass (sinq : ℚ → ℚ) (playerRect : Rectangle)
    (ef : ExplosionFactory) (bullets : List Bullet)
    (asteroids : List Asteroid) (explosions : List Explosion) :
    CollisionResult :=
  let init : CollisionState :=
    { bullets := bullets.map fun b => { alive := true, value := b },
      asteroids := [], explosions := explosions, player_alive := true }
  let final := asteroids.foldl (collideAsteroid sinq playerRect ef) init
  { bullets := final.bullets.filterMap MaybeAlive.as_option,
    asteroids := final.asteroids,
    explosions := final.explosions,
    player_alive := final.player_alive }

/-- An explosion spawned at a point is centered at that point. -/
lemma at_center_center (f : ExplosionFactory) (c : ℚ × ℚ) :
    (f.at_center c).rect.center = c := by
  obtain ⟨cx, cy⟩ := c
  simp only [ExplosionFactory.at_center, Rectangle.with_size,
    Rectangle.center_at, Rectangle.center]
  rw [Prod.mk.injEq]
  exact ⟨by ring, by ring⟩

/-- C1: with exactly one asteroid and one bullet whose rectangles overlap,
the asteroid not touching the player, the collision pass removes both,
leaves the player alive, and appends exactly one explosion, centered at the
asteroid's pre-removal center. -/
theorem collision_one_asteroid_one_bullet (sinq : ℚ → ℚ)
    (playerRect : Rectangle) (ef : ExplosionFactory) (a : Asteroid)
    (b : Bullet) (explosions : List Explosion)
    (hab : a.rect.overlaps (b.rect sinq) = true)
    (hap : a.rect.overlaps playerRect = false) :
    collisionPass sinq playerRect ef [b] [a] explosions =
      CollisionResult.mk [] [] (explosions ++ [ef.at_center a.rect.center])
        true ∧
    (ef.at_center a.rect.center).rect.center = a.rect.center := by
  refine ⟨?_, at_center_center ef a.rect.center⟩
  simp [collisionPass, collideAsteroid, hab, hap, MaybeAlive.as_option]

/-- Witness for C1 at concrete entities. -/
theorem collision_one_asteroid_one_bullet_witness :
    collisionPass (fun _ => 0) (Rectangle.mk 500 500 43 39)
      (ExplosionFactory.mk (AnimatedSprite.mk [] 1 0))
      [Bullet.rectBullet (Rectangle.mk 50 50 8 4)]
      [Asteroid.mk (AnimatedSprite.mk [] 1 0) (Rectangle.mk 0 0 96 96) 50]
      [] =
      CollisionResult.mk [] []
        ([] ++ [(ExplosionFactory.mk (AnimatedSprite.mk [] 1 0)).at_center
          (Asteroid.mk (AnimatedSprite.mk [] 1 0)
            (Rectangle.mk 0 0 96 96) 50).rect.center]) true ∧
    ((ExplosionFactory.mk (AnimatedSprite.mk [] 1 0)).at_center
        (Asteroid.mk (AnimatedSprite.mk [] 1 0)
          (Rectangle.mk 0 0 96 96) 50).rect.center).rect.center =
      (Asteroid.mk (AnimatedSprite.mk [] 1 0)
        (Rectangle.mk 0 0 96 96) 50).rect.center :=
  collision_one_asteroid_one_bullet (fun _ => 0) (Rectangle.mk 500 500 43 39)
    (ExplosionFactory.mk (AnimatedSprite.mk [] 1 0))
    (Asteroid.mk (AnimatedSprite.mk [] 1 0) (Rectangle.mk 0 0 96 96) 50)
    (Bullet.rectBullet (Rectangle.mk 50 50 8 4)) []
    (by norm_num [Rectangle.overlaps, Bullet.rect])
    (by norm_num [Rectangle.overlaps])

/-- The asteroid loop never changes the underlying bullet values, only the
alive flags. -/
lemma collide_preserves_bullet_values (sinq : ℚ → ℚ)
    (playerRect : Rectangle) (ef : ExplosionFactory) (st : CollisionState)
    (a : Asteroid) :
    (collideAsteroid sinq playerRect ef st a).bullets.map MaybeAlive.value =
      st.bullets.map MaybeAlive.value := by
  have hmap : ∀ bl : List (MaybeAlive Bullet),
      (bl.map fun bullet =>
        if a.rect.overlaps (bullet.value.rect sinq) then
          { bullet with alive := false }
        else bullet).map MaybeAlive.value = bl.map MaybeAlive.value := by
    intro bl
    induction bl with
    | nil => rfl
    | cons h t ih =>
        simp only [List.map_cons, ih]
        split <;> rfl
  unfold collideAsteroid
  dsimp only
  split <;> exact hmap st.bullets

/-- Survival condition of an asteroid in the collision pass: no bullet
overlaps it and it does not overlap the player.  Because the pass never
consults a bullet's alive flag inside the loop, this depends only on the
original bullet list. -/
def asteroidSurvives (sinq : ℚ → ℚ) (playerRect : Rectangle)
    (bullets : List Bullet) (a : Asteroid) : Bool :=
  !(bullets.any fun b => a.rect.overlaps (b.rect sinq)) &&
  !(a.rect.overlaps playerRect)

/-- Characterization of the surviving asteroids of the collision loop. -/
lemma foldl_collide_asteroids (sinq : ℚ → ℚ) (playerRect : Rectangle)
    (ef : ExplosionFactory) (asts : List Asteroid) :
    ∀ st : CollisionState,
      (asts.foldl (collideAsteroid sinq playerRect ef) st).asteroids =
        st.asteroids ++ asts.filter
          (asteroidSurvives sinq playerRect (st.bullets.map MaybeAlive.value)) := by
  induction asts with
  | nil => intro st; simp
  | cons a t ih =>
      intro st
      rw [List.foldl_cons, ih, collide_preserves_bullet_values]
      have hany : ∀ bl : List (MaybeAlive Bullet),
          ((bl.map MaybeAlive.value).any fun b =>
            a.rect.overlaps (b.rect sinq)) =
          bl.any fun bullet => a.rect.overlaps (bullet.value.rect sinq) := by
        intro bl
        induction bl with
        | nil => rfl
        | cons h t iha => simp only [List.map_cons, List.any_cons, iha]
      have hsurv : asteroidSurvives sinq playerRect
          (st.bullets.map MaybeAlive.value) a =
          (!(st.bullets.any fun bullet =>
              a.rect.overlaps (bullet.value.rect sinq)) &&
           !(a.rect.overlaps playerRect)) := by
        unfold asteroidSurvives
        rw [hany]
      rw [List.filter_cons, hsurv]
      unfold collideAsteroid
      dsimp only
      split_ifs with h1 <;> simp

/-- Characterization of the bullet flags after the collision loop: a bullet
ends up dead exactly when some asteroid of the pass overlaps it. -/
lemma foldl_collide_bullets (sinq : ℚ → ℚ) (playerRect : Rectangle)
    (ef : ExplosionFactory) (asts : List Asteroid) :
    ∀ st : CollisionState,
      (asts.foldl (collideAsteroid sinq playerRect ef) st).bullets =
        st.bullets.map fun bullet =>
          MaybeAlive.mk
            (bullet.alive && !(asts.any fun a =>
              a.rect.overlaps (bullet.value.rect sinq)))
            bullet.value := by
  induction asts with
  | nil =>
      intro st
      have heta : ∀ bullet : MaybeAlive Bullet,
          MaybeAlive.mk bullet.alive bullet.value = bullet := fun _ => rfl
      simp [heta]
  | cons a t ih =>
      intro st
      rw [List.foldl_cons, ih]
      have hbul : (collideAsteroid sinq playerRect ef st a).bullets =
          st.bullets.map fun bullet =>
            if a.rect.overlaps (bullet.value.rect sinq) then
              { bullet with alive := false }
            else bullet := by
        unfold collideAsteroid
        dsimp only
        split <;> rfl
      rw [hbul, List.map_map]
      congr 1
      funext bullet
      by_cases hov : a.rect.overlaps (bullet.value.rect sinq) = true
      · simp [Function.comp, hov, List.any_cons]
      · rw [Bool.not_eq_true] at hov
        simp [Function.comp, hov, List.any_cons]

/-- Retaining wrapped bullets by their alive flag is a plain filter. -/
lemma filterMap_as_option_map (l : List Bullet) (p : Bullet → Bool) :
    (l.map fun b => MaybeAlive.mk (p b) b).filterMap MaybeAlive.as_option =
      l.filter p := by
  induction l with
  | nil => rfl
  | cons h t ih =>
      by_cases hp : p h = true
      · simp [MaybeAlive.as_option, hp, ih]
      · rw [Bool.not_eq_true] at hp
        simp [MaybeAlive.as_option, hp, ih]

/-- C2 (amended): in the collision pass an asteroid dies exactly when some
bullet of the original list overlaps it or it overlaps the player — bullet
alive flags are never consulted inside the loop, so one bullet can mark any
number of asteroids dead in the same frame; a bullet is retained exactly
when no asteroid of the pass overlaps it (it is consumed at most once, at
retention time). -/
theorem collision_pass_filter_spec (sinq : ℚ → ℚ) (playerRect : Rectangle)
    (ef : ExplosionFactory) (bullets : List Bullet)
    (asteroids : List Asteroid) (explosions : List Explosion) :
    (collisionPass sinq playerRect ef bullets asteroids
        explosions).asteroids =
      asteroids.filter (asteroidSurvives sinq playerRect bullets) ∧
    (collisionPass sinq playerRect ef bullets asteroids
        explosions).bullets =
      bullets.filter fun b =>
        !(asteroids.any fun a => a.rect.overlaps (b.rect sinq)) := by
  constructor
  · unfold collisionPass
    dsimp only
    rw [foldl_collide_asteroids]
    have hid : List.map
        (MaybeAlive.value ∘ fun b : Bullet => MaybeAlive.mk true b) bullets =
        bullets := by
      induction bullets with
      | nil => rfl
      | cons h t ih =>
          rw [List.map_cons, ih]
          rfl
    simp only [List.map_map, hid, List.nil_append]
  · unfold collisionPass
    dsimp only
    rw [foldl_collide_bullets, List.map_map]
    have : ((fun bullet : MaybeAlive Bullet =>
        MaybeAlive.mk
          (bullet.alive && !(asteroids.any fun a =>
            a.rect.overlaps (bullet.value.rect sinq)))
          bullet.value) ∘ fun b => MaybeAlive.mk true b) =
        fun b => MaybeAlive.mk
          (!(asteroids.any fun a => a.rect.overlaps (b.rect sinq))) b := by
      funext b
      simp [Function.comp]
    rw [this, filterMap_as_option_map]

/-- Counterexample to C2 as stated: one bullet overlapping two asteroids
(the player far away) marks both asteroids dead in the same collision
pass — two explosions spawn and no asteroid survives. -/
theorem collision_bullet_double_kill_counterexample :
    (collisionPass (fun _ => 0) (Rectangle.mk 1000 1000 43 39)
        (ExplosionFactory.mk (AnimatedSprite.mk [] 1 0))
        [Bullet.rectBullet (Rectangle.mk 0 0 8 4)]
        [Asteroid.mk (AnimatedSprite.mk [] 1 0)
          (Rectangle.mk (-90) (-90) 96 96) 50,
         Asteroid.mk (AnimatedSprite.mk [] 1 0)
          (Rectangle.mk 1 1 96 96) 50] []).asteroids = [] ∧
    (collisionPass (fun _ => 0) (Rectangle.mk 1000 1000 43 39)
        (ExplosionFactory.mk (AnimatedSprite.mk [] 1 0))
        [Bullet.rectBullet (Rectangle.mk 0 0 8 4)]
        [Asteroid.mk (AnimatedSprite.mk [] 1 0)
          (Rectangle.mk (-90) (-90) 96 96) 50,
         Asteroid.mk (AnimatedSprite.mk [] 1 0)
          (Rectangle.mk 1 1 96 96) 50] []).explosions.length = 2 ∧
    (collisionPass (fun _ => 0) (Rectangle.mk 1000 1000 43 39)
        (ExplosionFactory.mk (AnimatedSprite.mk [] 1 0))
        [Bullet.rectBullet (Rectangle.mk 0 0 8 4)]
        [Asteroid.mk (AnimatedSprite.mk [] 1 0)
          (Rectangle.mk (-90) (-90) 96 96) 50,
         Asteroid.mk (AnimatedSprite.mk [] 1 0)
          (Rectangle.mk 1 1 96 96) 50] []).player_alive = true ∧
    (collisionPass (fun _ => 0) (Rectangle.mk 1000 1000 43 39)
        (ExplosionFactory.mk (AnimatedSprite.mk [] 1 0))
        [Bullet.rectBullet (Rectangle.mk 0 0 8 4)]
        [Asteroid.mk (AnimatedSprite.mk [] 1 0)
          (Rectangle.mk (-90) (-90) 96 96) 50,
         Asteroid.mk (AnimatedSprite.mk [] 1 0)
          (Rectangle.mk 1 1 96 96) 50] []).bullets = [] := by
  norm_num [collisionPass, collideAsteroid, MaybeAlive.as_option,
    Rectangle.overlaps, Bullet.rect, ExplosionFactory.at_center]

/-- A parallax `Background` layer from `views/shared.rs`: scroll position,
scroll velocity, and the tiled sprite. -/
structure Background where
  pos : ℚ
  vel : ℚ
  sprite : Sprite
deriving DecidableEq

/-- The scroll-position advance of `Background::render` (`arcaders-1-9
views/shared.rs`; the same step is `Background::update` once the tutorial
splits update from render): add `vel * elapsed` and subtract the sprite
width once if the result exceeds it. -/
def Background.update (bg : Background) (elapsed : ℚ) : Background :=
  let size := bg.sprite.size
  let pos := bg.pos + bg.vel * elapsed
  if pos > size.1 then { bg with pos := pos - size.1 }
  else { bg with pos := pos }

/-- Real (rational) modulus: `s` reduced modulo `w`. -/
def qmod (s w : ℚ) : ℚ :=
  s - w * ⌊s / w⌋

/-- Counterexample to C7 as stated: from position 0 with velocity 300 over
one second on a 100-wide sprite, the new position is 200 — neither equal to
`(pos + vel * elapsed) mod width = 0` nor within `[0, width]`, because the
code subtracts the width at most once. -/
theorem background_wrap_counterexample :
    ¬ ((((Background.mk 0 300 (Sprite.mk (Rectangle.mk 0 0 100 100))).update
          1).pos = qmod (0 + 300 * 1) 100) ∧
       (0 ≤ ((Background.mk 0 300
          (Sprite.mk (Rectangle.mk 0 0 100 100))).update 1).pos ∧
        ((Background.mk 0 300
          (Sprite.mk (Rectangle.mk 0 0 100 100))).update 1).pos ≤ 100)) := by
  intro h
  have h2 := h.2.2
  norm_num [Background.update, Sprite.size] at h2

/-- C7 (amended): one update advances the scroll position by
`vel * elapsed` and subtracts the sprite width at most once; therefore the
position stays within `[0, width]` whenever the advanced position is at
most `2 * width`, and it equals the advanced position modulo the width
whenever that value is below `2 * width` and not exactly the width (at
exactly the width the code keeps `width` rather than wrapping to 0). -/
theorem background_wrap_amended (bg : Background) (elapsed : ℚ)
    (h0 : 0 ≤ bg.pos) (hv : 0 ≤ bg.vel) (he : 0 ≤ elapsed)
    (hw : 0 < bg.sprite.size.1) :
    (bg.pos + bg.vel * elapsed ≤ 2 * bg.sprite.size.1 →
      0 ≤ (bg.update elapsed).pos ∧
      (bg.update elapsed).pos ≤ bg.sprite.size.1) ∧
    (bg.pos + bg.vel * elapsed < 2 * bg.sprite.size.1 →
      bg.pos + bg.vel * elapsed ≠ bg.sprite.size.1 →
      (bg.update elapsed).pos =
        qmod (bg.pos + bg.vel * elapsed) bg.sprite.size.1) := by
  have hs : 0 ≤ bg.pos + bg.vel * elapsed :=
    add_nonneg h0 (mul_nonneg hv he)
  unfold Background.update
  dsimp only
  constructor
  · intro hle
    split_ifs with hgt
    · constructor <;> dsimp only <;> linarith
    · push_neg at hgt
      constructor <;> dsimp only <;> linarith
  · intro hlt hne
    split_ifs with hgt
    · have hfloor : ⌊(bg.pos + bg.vel * elapsed) / bg.sprite.size.1⌋ = 1 := by
        rw [Int.floor_eq_iff]
        constructor
        · push_cast
          rw [le_div_iff₀ hw]
          linarith
        · push_cast
          rw [div_lt_iff₀ hw]
          linarith
      unfold qmod
      dsimp only
      rw [hfloor]
      push_cast
      ring
    · push_neg at hgt
      have hltw : bg.pos + bg.vel * elapsed < bg.sprite.size.1 :=
        lt_of_le_of_ne hgt hne
      have hfloor : ⌊(bg.pos + bg.vel * elapsed) / bg.sprite.size.1⌋ = 0 := by
        rw [Int.floor_eq_iff]
        constructor
        · push_cast
          exact div_nonneg hs hw.le
        · push_cast
          rw [div_lt_iff₀ hw]
          linarith
      unfold qmod
      dsimp only
      rw [hfloor]
      push_cast
      ring

/-- Witness for the amended C7: a small scroll that stays in range and
agrees with the modulus. -/
theorem background_wrap_amended_witness :
    (((0:ℚ) + 30 * 1 ≤ 2 * 100 →
      0 ≤ ((Background.mk 0 30 (Sprite.mk (Rectangle.mk 0 0 100 100))).update
        1).pos ∧
      ((Background.mk 0 30 (Sprite.mk (Rectangle.mk 0 0 100 100))).update
        1).pos ≤ 100) ∧
    ((0:ℚ) + 30 * 1 < 2 * 100 → (0:ℚ) + 30 * 1 ≠ 100 →
      ((Background.mk 0 30 (Sprite.mk (Rectangle.mk 0 0 100 100))).update
        1).pos = qmod (0 + 30 * 1) 100)) :=
  background_wrap_amended
    (Background.mk 0 30 (Sprite.mk (Rectangle.mk 0 0 100 100))) 1
    (by norm_num) (by norm_num) (by norm_num)
    (by norm_num [Sprite.size])

/-- The selection-navigation block of `MainMenuView::render`
(`arcaders-1-11 views/main_menu.rs`): on an up edge decrement and wrap a
negative index to `len - 1`; then on a down edge increment and wrap an
index reaching `len` to 0.  The Rust index is an `i8`; modelling it as `ℤ`
is faithful for menus of fewer than 128 actions. -/
def menuNavigate (len : ℤ) (key_up_now key_down_now : Option Bool)
    (selected : ℤ) : ℤ :=
  let s1 := if key_up_now = some true then
              let s := selected - 1
              if s < 0 then len - 1 else s
            else selected
  if key_down_now = some true then
    let s2 := s1 + 1
    if s2 ≥ len then 0 else s2
  else s1

/-- C8: the menu selection wraps modulo the action count — up from 0 gives
`len - 1`, down from `len - 1` gives 0, any other single-direction step
moves by one, and the index always stays within `[0, len - 1]`. -/
theorem menu_navigate_wrap (len : ℤ) (hlen : 1 ≤ len) (sel : ℤ)
    (h0 : 0 ≤ sel) (hN : sel < len) (up down : Option Bool) :
    (up = some true → down ≠ some true → sel = 0 →
      menuNavigate len up down sel = len - 1) ∧
    (down = some true → up ≠ some true → sel = len - 1 →
      menuNavigate len up down sel = 0) ∧
    (up = some true → down ≠ some true → 0 < sel →
      menuNavigate len up down sel = sel - 1) ∧
    (down = some true → up ≠ some true → sel < len - 1 →
      menuNavigate len up down sel = sel + 1) ∧
    (0 ≤ menuNavigate len up down sel ∧
      menuNavigate len up down sel < len) := by
  refine ⟨?_, ?_, ?_, ?_, ?_⟩
  · intro hu hd hs
    simp only [menuNavigate, hu, if_pos rfl, if_neg hd]
    split_ifs <;> omega
  · intro hd hu hs
    simp only [menuNavigate, if_neg hu, hd, if_pos rfl]
    split_ifs <;> omega
  · intro hu hd hs
    simp only [menuNavigate, hu, if_pos rfl, if_neg hd]
    split_ifs <;> omega
  · intro hd hu hs
    simp only [menuNavigate, if_neg hu, hd, if_pos rfl]
    split_ifs <;> omega
  · simp only [menuNavigate]
    split_ifs <;> omega

/-- Witness for C8: a three-entry menu, navigating up from index 0. -/
theorem menu_navigate_wrap_witness :
    ((some true = some true → (none : Option Bool) ≠ some true → (0:ℤ) = 0 →
      menuNavigate 3 (some true) none 0 = 3 - 1) ∧
    ((none : Option Bool) = some true → some true ≠ some true → (0:ℤ) = 3 - 1 →
      menuNavigate 3 (some true) none 0 = 0) ∧
    (some true = some true → (none : Option Bool) ≠ some true → (0:ℤ) < 0 →
      menuNavigate 3 (some true) none 0 = 0 - 1) ∧
    ((none : Option Bool) = some true → some true ≠ some true → (0:ℤ) < 3 - 1 →
      menuNavigate 3 (some true) none 0 = 0 + 1) ∧
    (0 ≤ menuNavigate 3 (some true) none 0 ∧
      menuNavigate 3 (some true) none 0 < 3)) :=
  menu_navigate_wrap 3 (by norm_num) 0 (by norm_num) (by norm_num)
    (some true) none

/-- The set of three parallax layers threaded between views
(`views/shared.rs`). -/
structure BgSet where
  back : Background
  middle : Background
  front : Background
deriving DecidableEq

/-- The `GameView` state of `views/game.rs`.  The audio fields carry no
simulation state and are omitted. -/
structure GameView where
  player : Player
  bullets : List Bullet
  asteroids : List Asteroid
  asteroid_factory : AsteroidFactory
  explosions : List Explosion
  explosion_factory : ExplosionFactory
  bg : BgSet
deriving DecidableEq

/-- Embeds `ViewAction` from `phi/mod.rs` (arcaders-1-13): render the view
returned by `update`, or quit — the enum has no other variant, so no other
transition can be requested. -/
inductive ViewAction where
  | render (view : GameView)
  | quit
deriving DecidableEq

/-- Observation: is the action a render action? -/
def ViewAction.isRender : ViewAction → Bool
  | .render _ => true
  | .quit => false

/-- Per-frame environment of `GameView::update`: the input snapshot, the
window size, the random draws of the frame (`spawnRoll` for the 1-in-100
check and the three uniforms consumed by `AsteroidFactory::random`), and
the numeric parameters `rsqrt2` (the value of `1.0 / 2.0f64.sqrt()`) and
`sinq` (the value of `f64::sin`). -/
structure Env where
  events : Events
  outW : ℚ
  outH : ℚ
  spawnRoll : ℕ
  randFps : ℚ
  randY : ℚ
  randVel : ℚ
  rsqrt2 : ℚ
  sinq : ℚ → ℚ

/-- Embeds `GameView::update` (`views/game.rs`): return quit on a quit event;
otherwise update the player (a failed clamp is the panicking `unwrap`,
hence `none`), filter-update bullets, asteroids and explosions, run the
collision pass, append newly fired bullets on a space edge, push one
random asteroid on a 1-in-100 roll, advance the background layers, and
render the updated view. -/
def GameView.update (env : Env) (elapsed : ℚ) (g : GameView) :
    Option ViewAction :=
  if env.events.now_quit = true then some ViewAction.quit
  else
    (g.player.update env.events elapsed env.outW env.outH env.rsqrt2).bind
      fun player =>
        let bullets := g.bullets.filterMap
          (Bullet.update env.sinq env.outW env.outH elapsed)
        let asteroids := g.asteroids.filterMap (Asteroid.update elapsed)
        let explosions := g.explosions.filterMap (Explosion.update elapsed)
        let coll := collisionPass env.sinq player.rect g.explosion_factory
          bullets asteroids explosions
        let bullets2 :=
          if env.events.now_key_space = some true then
            coll.bullets ++ player.spawn_bullets
          else coll.bullets
        (if env.spawnRoll % 100 = 0 then
          (g.asteroid_factory.random env.outW env.outH env.randFps env.randY
            env.randVel).map fun a => coll.asteroids ++ [a]
        else some coll.asteroids).map fun asteroids2 =>
          ViewAction.render
            { player := player,
              bullets := bullets2,
              asteroids := asteroids2,
              asteroid_factory := g.asteroid_factory,
              explosions := coll.explosions,
              explosion_factory := g.explosion_factory,
              bg := BgSet.mk (g.bg.back.update elapsed)
                (g.bg.middle.update elapsed) (g.bg.front.update elapsed) }

/-- The non-quit branch of `GameView.update` can only produce a render
action (or diverge into a panic). -/
lemma map_render_ne_quit (o : Option (List Asteroid))
    (f : List Asteroid → GameView) :
    (o.map fun l => ViewAction.render (f l)) ≠ some ViewAction.quit := by
  cases o <;> simp

/-- Mapping the render constructor over an option always yields a render
action whenever it yields anything. -/
lemma option_all_isRender_map (o : Option (List Asteroid))
    (f : List Asteroid → GameView) :
    Option.all ViewAction.isRender
      (o.map fun l => ViewAction.render (f l)) = true := by
  cases o <;> rfl

/-- C10: `GameView::update` returns the quit action exactly when the
snapshot's quit flag is set this frame; with the flag unset, whatever it
returns is a render action carrying the game view — the gameplay view
never requests a transition to any other view. -/
theorem game_update_quit_or_render (env : Env) (elapsed : ℚ) (g : GameView) :
    (GameView.update env elapsed g = some ViewAction.quit ↔
      env.events.now_quit = true) ∧
    (env.events.now_quit = false →
      Option.all ViewAction.isRender (GameView.update env elapsed g) =
        true) := by
  constructor
  · by_cases hq : env.events.now_quit = true
    · unfold GameView.update
      rw [if_pos hq]
      simp [hq]
    · have hqf : env.events.now_quit = false := by
        revert hq
        cases env.events.now_quit <;> simp
      unfold GameView.update
      rw [if_neg hq]
      constructor
      · intro hsome
        exfalso
        cases ho : Player.update env.events elapsed env.outW env.outH
            env.rsqrt2 g.player with
        | none => rw [ho] at hsome; simp at hsome
        | some p =>
            rw [ho] at hsome
            exact map_render_ne_quit _ _ hsome
      · intro h
        rw [h] at hqf
        exact Bool.noConfusion hqf
  · intro hqf
    unfold GameView.update
    rw [if_neg (by simp [hqf])]
    cases ho : Player.update env.events elapsed env.outW env.outH
        env.rsqrt2 g.player with
    | none => rfl
    | some p => exact option_all_isRender_map _ _

/-- A minimal concrete animation used by the concrete instances. -/
def sampleSprite : AnimatedSprite :=
  AnimatedSprite.mk [] 1 0

/-- A concrete background layer used by the concrete instances. -/
def sampleBg : Background :=
  Background.mk 0 20 (Sprite.mk (Rectangle.mk 0 0 100 100))

/-- A concrete quiet frame environment: no input edges, no held keys,
800x600 viewport, spawn roll missing the 1-in-100 branch. -/
def sampleEnv : Env :=
  Env.mk (Events.mk false none none none none false false false false)
    800 600 1 0 0 0 0 (fun _ => 0)

/-- A concrete game view: player at rest, no bullets, no asteroids, no
explosions. -/
def sampleGame : GameView :=
  GameView.mk (Player.mk (Rectangle.mk 64 280 43 39) CannonType.rectBullet)
    [] [] (AsteroidFactory.mk sampleSprite) []
    (ExplosionFactory.mk sampleSprite) (BgSet.mk sampleBg sampleBg sampleBg)

/-- Witness for C10: on a quiet frame the update yields a render action. -/
theorem game_update_quit_or_render_witness :
    Option.all ViewAction.isRender (GameView.update sampleEnv 0 sampleGame) =
      true :=
  (game_update_quit_or_render sampleEnv 0 sampleGame).2 rfl

/-- The collision pass with no bullets and one asteroid overlapping the
player: the asteroid dies, one explosion spawns, the player-alive flag
drops. -/
lemma collision_player_hit (sinq : ℚ → ℚ) (playerRect : Rectangle)
    (ef : ExplosionFactory) (a2 : Asteroid) (explosions : List Explosion)
    (hov : a2.rect.overlaps playerRect = true) :
    collisionPass sinq playerRect ef [] [a2] explosions =
      CollisionResult.mk [] [] (explosions ++ [ef.at_center a2.rect.center])
        false := by
  simp [collisionPass, collideAsteroid, hov]

/-- C3: with no bullets and exactly one asteroid that (after its motion
update) overlaps the (updated) player rectangle, `GameView::update`
removes the asteroid, spawns exactly one explosion centered at the
asteroid's last position, drops the collision pass's player-alive flag,
leaves the player entity itself untouched by the collision pass, and still
returns a render action for the same game view rather than any
transition. -/
theorem game_update_player_hit (env : Env) (elapsed : ℚ) (g : GameView)
    (a a2 : Asteroid) (p2 : Player)
    (hq : env.events.now_quit = false)
    (hb : g.bullets = [])
    (ha : g.asteroids = [a])
    (hp : Player.update env.events elapsed env.outW env.outH env.rsqrt2
      g.player = some p2)
    (hs : Asteroid.update elapsed a = some a2)
    (hov : a2.rect.overlaps p2.rect = true)
    (hfire : env.events.now_key_space ≠ some true)
    (hroll : env.spawnRoll % 100 ≠ 0) :
    GameView.update env elapsed g = some (ViewAction.render
      (GameView.mk p2 [] [] g.asteroid_factory
        (g.explosions.filterMap (Explosion.update elapsed) ++
          [g.explosion_factory.at_center a2.rect.center])
        g.explosion_factory
        (BgSet.mk (g.bg.back.update elapsed) (g.bg.middle.update elapsed)
          (g.bg.front.update elapsed)))) ∧
    (collisionPass env.sinq p2.rect g.explosion_factory [] [a2]
      (g.explosions.filterMap (Explosion.update elapsed))).player_alive =
      false ∧
    (g.explosion_factory.at_center a2.rect.center).rect.center =
      a2.rect.center := by
  refine ⟨?_, ?_, at_center_center _ _⟩
  · unfold GameView.update
    rw [if_neg (by simp [hq]), hp, hb, ha]
    simp only [Option.some_bind, List.filterMap_nil, List.filterMap_cons, hs,
      List.filterMap]
    rw [collision_player_hit env.sinq p2.rect g.explosion_factory a2
      (g.explosions.filterMap (Explosion.update elapsed)) hov]
    rw [if_neg hfire, if_neg hroll]
    rfl
  · rw [collision_player_hit env.sinq p2.rect g.explosion_factory a2
      (g.explosions.filterMap (Explosion.update elapsed)) hov]

/-- Witness for C3: the resting player overlapped by one asteroid on a
quiet frame with zero elapsed time. -/
theorem game_update_player_hit_witness :
    GameView.update sampleEnv 0
      (GameView.mk (Player.mk (Rectangle.mk 64 280 43 39)
          CannonType.rectBullet)
        [] [Asteroid.mk sampleSprite (Rectangle.mk 80 280 96 96) 50]
        (AsteroidFactory.mk sampleSprite) []
        (ExplosionFactory.mk sampleSprite)
        (BgSet.mk sampleBg sampleBg sampleBg)) =
      some (ViewAction.render
        (GameView.mk (Player.mk (Rectangle.mk 64 280 43 39)
            CannonType.rectBullet) [] []
          (AsteroidFactory.mk sampleSprite)
          ([] ++ [(ExplosionFactory.mk sampleSprite).at_center
            (Asteroid.mk sampleSprite
              (Rectangle.mk 80 280 96 96) 50).rect.center])
          (ExplosionFactory.mk sampleSprite)
          (BgSet.mk (sampleBg.update 0) (sampleBg.update 0)
            (sampleBg.update 0)))) ∧
    (collisionPass sampleEnv.sinq
      (Player.mk (Rectangle.mk 64 280 43 39) CannonType.rectBullet).rect
      (ExplosionFactory.mk sampleSprite) []
      [Asteroid.mk sampleSprite (Rectangle.mk 80 280 96 96) 50]
      []).player_alive = false ∧
    ((ExplosionFactory.mk sampleSprite).at_center
      (Asteroid.mk sampleSprite
        (Rectangle.mk 80 280 96 96) 50).rect.center).rect.center =
      (Asteroid.mk sampleSprite (Rectangle.mk 80 280 96 96) 50).rect.center :=
  game_update_player_hit sampleEnv 0
    (GameView.mk (Player.mk (Rectangle.mk 64 280 43 39)
        CannonType.rectBullet)
      [] [Asteroid.mk sampleSprite (Rectangle.mk 80 280 96 96) 50]
      (AsteroidFactory.mk sampleSprite) []
      (ExplosionFactory.mk sampleSprite)
      (BgSet.mk sampleBg sampleBg sampleBg))
    (Asteroid.mk sampleSprite (Rectangle.mk 80 280 96 96) 50)
    (Asteroid.mk sampleSprite (Rectangle.mk 80 280 96 96) 50)
    (Player.mk (Rectangle.mk 64 280 43 39) CannonType.rectBullet)
    rfl rfl rfl
    (by norm_num [Player.update, Rectangle.move_inside, sampleEnv,
      PLAYER_SPEED]
        decide)
    (by norm_num [Asteroid.update, AnimatedSprite.add_time, ASTEROID_SIDE,
      sampleSprite])
    (by norm_num [Rectangle.overlaps])
    (by decide)
    (by decide)

end Arcade
